import Mathlib

/-!
Shallow embedding of the med-mind backend (`src/main.py`), a Flask service
that stores uploaded files in a blob store, extracts text (OCR / DOCX
parsing), classifies, summarizes and analyzes the text through an external
generative model, and persists per-upload metadata records.

External effects (OCR engine, DOCX parser, generative-model calls, blob
store and record store operations, randomness, server time) are modelled as
explicit oracle parameters; a Python exception raised by an external call is
an `Except.error` carrying the exception message.  Each AI helper returns,
besides its result, the number of external model invocations it performed,
so that "without calling the external model" is expressible.
-/

/-! ## Python string primitives -/

/-- Python whitespace predicate used by `str.strip` (ASCII part). -/
def isPySpace (c : Char) : Bool :=
  c = ' ' || c = '\t' || c = '\n' || c = '\r' || c = '\x0b' || c = '\x0c'

/-- Python `str.strip()`: remove leading and trailing whitespace. -/
def pyStrip (s : String) : String :=
  ⟨((s.data.dropWhile isPySpace).reverse.dropWhile isPySpace).reverse⟩

/-- Python `str.lower()`. -/
def pyLower (s : String) : String := ⟨s.data.map Char.toLower⟩

/-- Python `str.upper()`. -/
def pyUpper (s : String) : String := ⟨s.data.map Char.toUpper⟩

/-- Python slicing `s[:n]`. -/
def pyTake (n : Nat) (s : String) : String := ⟨s.data.take n⟩

/-- Helper for substring search: does `sub` occur contiguously in the list? -/
def hasSubList (sub : List Char) : List Char → Bool
  | [] => sub.isEmpty
  | c :: t => sub.isPrefixOf (c :: t) || hasSubList sub t

/-- Python `sub in s` on strings. -/
def pyIn (sub s : String) : Bool := hasSubList sub.data s.data

/-- Python `s.startswith(pre)`. -/
def pyStartsWith (s pre : String) : Bool := pre.data.isPrefixOf s.data

/-- Python truthiness of an optional string (`None` and `''` are falsy). -/
def pyTruthyOpt : Option String → Bool
  | none => false
  | some s => s ≠ ""

/-! ## Text Extractor (`extract_text_from_file`, main.py lines 74-122) -/

/-- Oracles for the external libraries used by the extractor: `pytesseract`
image OCR, `pytesseract` on raw PDF bytes, and `python-docx` parsing (which
yields the list of paragraph texts in document order).  `Except.error e`
models the library raising an exception with message `e`. -/
structure ExtractEnv where
  imageOcr : List Nat → Except String String
  pdfOcr : List Nat → Except String String
  docxParse : List Nat → Except String (List String)

/-- MIME type dispatched to the DOCX branch. -/
def docxMime : String :=
  "application/vnd.openxmlformats-officedocument.wordprocessingml.document"

/-- Failure message of the image-OCR branch. -/
def imageFailMsg (filename e : String) : String :=
  "OCR failed for image '" ++ filename ++ "'. Error: " ++ e

/-- Failure message of the PDF-OCR branch. -/
def pdfFailMsg (filename e : String) : String :=
  "OCR for PDF '" ++ filename ++ "' failed. Ensure Tesseract and Poppler are correctly installed and configured on the backend server for PDF processing. Error: " ++ e

/-- Failure message of the DOCX branch. -/
def docxFailMsg (filename e : String) : String :=
  "Text extraction for DOCX '" ++ filename ++ "' failed. Error: " ++ e

/-- Fixed instructional message for legacy `.doc` files. -/
def docLegacyMsg (filename : String) : String :=
  "Direct text extraction for older .doc files is not supported by this backend. Please convert '" ++ filename ++ "' to .docx or PDF for processing."

/-- Fixed message for unsupported MIME types. -/
def unsupportedMsg (file_mimetype : String) : String :=
  "Text extraction not supported for file type: " ++ file_mimetype ++ ". No digital copy extracted."

/-- Fixed replacement message when extracted text is empty or whitespace-only. -/
def noReadableMsg (filename file_mimetype : String) : String :=
  "No readable text found in '" ++ filename ++ "' or text extraction failed. File type: " ++ file_mimetype ++ "."

/-- Branch dispatch of `extract_text_from_file`: value of `ocr_text` just
before the final empty-text check (main.py lines 81-116). -/
def extract_branch (env : ExtractEnv) (file_bytes : List Nat)
    (file_mimetype filename : String) : String :=
  if pyStartsWith file_mimetype "image/" then
    match env.imageOcr file_bytes with
    | .ok t => t
    | .error e => imageFailMsg filename e
  else if file_mimetype = "application/pdf" then
    match env.pdfOcr file_bytes with
    | .ok t => t
    | .error e => pdfFailMsg filename e
  else if file_mimetype = docxMime then
    match env.docxParse file_bytes with
    | .ok paras => String.intercalate "\n" paras
    | .error e => docxFailMsg filename e
  else if file_mimetype = "application/msword" then
    docLegacyMsg filename
  else
    unsupportedMsg file_mimetype

/-- Embedding of `extract_text_from_file` (main.py lines 74-122): branch
dispatch followed by the replacement of empty / whitespace-only results
(`if not ocr_text.strip()`, lines 119-120). -/
def extract_text_from_file (env : ExtractEnv) (file_bytes : List Nat)
    (file_mimetype filename : String) : String :=
  let ocr_text := extract_branch env file_bytes file_mimetype filename
  if pyStrip ocr_text = "" then noReadableMsg filename file_mimetype
  else ocr_text

/-! ## Helper lemmas on the string primitives -/

theorem data_append (s t : String) : (s ++ t).data = s.data ++ t.data := by
  cases s; cases t; rfl

theorem mem_dropWhile_of_not {p : Char → Bool} {x : Char} :
    ∀ {l : List Char}, x ∈ l → p x = false → x ∈ l.dropWhile p := by
  intro l hx hpx
  induction l with
  | nil => cases hx
  | cons a t ih =>
    by_cases ha : p a = true
    · rw [List.dropWhile_cons_of_pos ha]
      rcases List.mem_cons.mp hx with h | h
      · subst h; rw [hpx] at ha; cases ha
      · exact ih h
    · rw [List.dropWhile_cons_of_neg ha]
      exact hx

theorem mem_pyStrip {s : String} {x : Char} (hx : x ∈ s.data)
    (hpx : isPySpace x = false) : x ∈ (pyStrip s).data := by
  unfold pyStrip
  exact List.mem_reverse.mpr
    (mem_dropWhile_of_not (List.mem_reverse.mpr (mem_dropWhile_of_not hx hpx)) hpx)

theorem pyStrip_ne_empty {s : String} {x : Char} (hx : x ∈ s.data)
    (hpx : isPySpace x = false) : pyStrip s ≠ "" := by
  intro h
  have : x ∈ (pyStrip s).data := mem_pyStrip hx hpx
  rw [h] at this
  cases this

theorem pyStrip_length_le (s : String) : (pyStrip s).length ≤ s.length := by
  unfold pyStrip String.length
  simp only [List.length_reverse]
  calc (List.dropWhile isPySpace (List.dropWhile isPySpace s.data).reverse).length
      ≤ (List.dropWhile isPySpace s.data).reverse.length :=
        (List.dropWhile_suffix _).length_le
    _ = (List.dropWhile isPySpace s.data).length := List.length_reverse _
    _ ≤ s.data.length := (List.dropWhile_suffix _).length_le

theorem noReadableMsg_strip_ne (filename file_mimetype : String) :
    pyStrip (noReadableMsg filename file_mimetype) ≠ "" := by
  apply pyStrip_ne_empty (x := 'N')
  · unfold noReadableMsg
    simp only [data_append, List.mem_append]
    left; left; left; left
    decide
  · decide

theorem unsupportedMsg_strip_ne (file_mimetype : String) :
    pyStrip (unsupportedMsg file_mimetype) ≠ "" := by
  apply pyStrip_ne_empty (x := 'T')
  · unfold unsupportedMsg
    simp only [data_append, List.mem_append]
    left; left
    decide
  · decide

/-! ## AI helpers (`is_medical_file_ai`, `get_summary_from_ai`,
`get_analysis_from_ai`, main.py lines 124-168)

Each helper takes an oracle standing for the call site's interaction with
the generative model and returns its result paired with the number of
external model invocations performed. -/

/-- Prompt built by `is_medical_file_ai` (main.py line 130). -/
def classifyPrompt (text_content : String) : String :=
  "Is the following document content related to medical records, patient health, or clinical notes? Respond with only 'YES' or 'NO'.\n\nDocument Content:\n" ++ pyTake 2000 text_content

/-- Embedding of `is_medical_file_ai` (main.py lines 124-142).  The oracle
returns `.error e` when `model.generate_content` raises, `.ok none` when the
response has no candidate with parts, and `.ok (some t)` when the first
part's text is `t`.  The input is `none` when the Python argument is `None`.
Result: classification verdict and number of model calls. -/
def is_medical_file_ai (gen : String → Except String (Option String))
    (text_content : Option String) : Bool × Nat :=
  match text_content with
  | none => (false, 0)
  | some t =>
    if t = "" ∨ (pyStrip t).length < 50 ∨
        pyIn "could not extract text" (pyLower t) = true ∨
        pyIn "ocr failed" (pyLower t) = true then
      (false, 0)
    else
      match gen (classifyPrompt t) with
      | .error _ => (false, 1)
      | .ok none => (false, 1)
      | .ok (some resp) => (pyIn "YES" (pyUpper (pyStrip resp)), 1)

/-- Fixed guard message of the summarizer. -/
def notEnoughSummaryMsg : String :=
  "Not enough content to generate a meaningful summary."

/-- Fixed guard message of the analyzer. -/
def notEnoughAnalysisMsg : String :=
  "Not enough content to generate a meaningful analysis."

/-- Prompt built by `get_summary_from_ai` (main.py line 149). -/
def summaryPrompt (text_content : String) : String :=
  "Please summarize the following medical record text concisely, highlighting key information such as patient details, diagnoses, medications, and follow-up plans. Keep it under 150 words.\n\nMedical Record:\n" ++ pyTake 2000 text_content

/-- Prompt built by `get_analysis_from_ai` (main.py line 162). -/
def analysisPrompt (text_content : String) : String :=
  "Analyze the following medical record text and extract key details such as patient name, date of birth, main diagnosis, prescribed medications (with dosage if available), and any follow-up instructions. Present this information clearly and concisely. If any information is missing or unclear, state that. Keep the response to a maximum of 250 words.\n\nMedical Record:\n" ++ pyTake 2500 text_content

/-- Embedding of `get_summary_from_ai` (main.py lines 144-155).  The oracle
returns `.error e` when the model call or the response access raises with
message `e`, `.ok t` when `response.candidates[0].content.parts[0].text`
is `t`.  Result: returned string and number of model calls. -/
def get_summary_from_ai (gen : String → Except String String)
    (text_content : Option String) : String × Nat :=
  match text_content with
  | none => (notEnoughSummaryMsg, 0)
  | some t =>
    if t = "" ∨ (pyStrip t).length < 50 then (notEnoughSummaryMsg, 0)
    else
      match gen (summaryPrompt t) with
      | .ok resp => (pyStrip resp, 1)
      | .error e => ("Failed to generate summary: " ++ e, 1)

/-- Embedding of `get_analysis_from_ai` (main.py lines 157-168). -/
def get_analysis_from_ai (gen : String → Except String String)
    (text_content : Option String) : String × Nat :=
  match text_content with
  | none => (notEnoughAnalysisMsg, 0)
  | some t =>
    if t = "" ∨ (pyStrip t).length < 50 then (notEnoughAnalysisMsg, 0)
    else
      match gen (analysisPrompt t) with
      | .ok resp => (pyStrip resp, 1)
      | .error e => ("Failed to analyze document: " ++ e, 1)

/-! ## Record Store and Blob Store model -/

/-- Metadata record persisted per upload (main.py lines 217-231).
`uploadDate` and `uploadedAt` model the server timestamps. -/
structure RecordDoc where
  id : String
  userId : String
  name : String
  type : String
  size : Option Nat
  uploadDate : Nat
  category : String
  ocrText : String
  isMedical : Bool
  storagePath : Option String
  analysisResult : String
  summaryResult : String
  uploadedAt : Nat
deriving DecidableEq

/-- Combined state of the Blob Store (key-to-bytes) and the Record Store
(Firestore `records` collection). -/
structure Store where
  blobs : List (String × List Nat)
  records : List RecordDoc
deriving DecidableEq

/-- Write a blob, overwriting any previous blob under the same key. -/
def Store.putBlob (st : Store) (key : String) (content : List Nat) : Store :=
  { st with blobs := (key, content) :: st.blobs.filter (fun p => p.1 ≠ key) }

/-- Firestore document lookup by id. -/
def Store.findRecord (st : Store) (record_id : String) : Option RecordDoc :=
  st.records.find? (fun r => r.id = record_id)

/-- Responses of the HTTP endpoints, as JSON bodies.  Error responses carry
the value of their `error` field. -/
inductive ApiBody where
  | error (msg : String)
  | uploadOk (message : String) (record : RecordDoc)
  | listOk (records : List (RecordDoc × Option String))
  | deleteOk (message : String)
  | summaryOk (s : String)
  | analysisOk (s : String)
deriving DecidableEq

/-! ## Upload endpoint (`upload_file`, main.py lines 173-243) -/

/-- Multipart upload request as seen by the handler: presence of the
`medicalFile` part, its filename, bytes, declared MIME type and content
length, and the `userId` / `category` form fields (absent fields are
`none`). -/
structure UploadRequest where
  hasFilePart : Bool
  filename : String
  fileBytes : List Nat
  mimetype : String
  contentLength : Option Nat
  userId : Option String
  category : Option String

/-- Environment of the upload handler: extractor oracles, the three model
oracles, the random hex suffix `os.urandom(16).hex()`, the Firestore
document id, injected failures of the blob upload and the Firestore `set`
(the exception message when they raise), and the server time standing for
`firestore.SERVER_TIMESTAMP`. -/
structure UploadEnv where
  extractEnv : ExtractEnv
  genClassify : String → Except String (Option String)
  genSummary : String → Except String String
  genAnalyze : String → Except String String
  randHex : String
  docId : String
  blobUploadFail : Option String
  docSetFail : Option String
  now : Nat

/-- Body of the `try` block of `upload_file` (main.py lines 196-239), run
after validation: blob write, text extraction, classification, analysis,
summary, record persistence.  Returns the persisted record or the raised
exception's message, together with the store as left by the performed
writes (a blob written before a later failure stays written — no rollback). -/
def upload_pipeline (env : UploadEnv) (req : UploadRequest)
    (user_id category : String) (st : Store) :
    Except String RecordDoc × Store :=
  let file_bytes := req.fileBytes
  let file_mimetype := pyLower req.mimetype
  let filename := req.filename
  let unique_filename := user_id ++ "/" ++ env.randHex ++ "_" ++ filename
  match env.blobUploadFail with
  | some e => (.error e, st)
  | none =>
    let st1 := st.putBlob unique_filename file_bytes
    let ocr_text := extract_text_from_file env.extractEnv file_bytes file_mimetype filename
    let is_medical := (is_medical_file_ai env.genClassify (some ocr_text)).1
    let analysis_result := (get_analysis_from_ai env.genAnalyze (some ocr_text)).1
    let summary_result := (get_summary_from_ai env.genSummary (some ocr_text)).1
    let record_data : RecordDoc :=
      { id := env.docId
        userId := user_id
        name := filename
        type := file_mimetype
        size := req.contentLength
        uploadDate := env.now
        category := category
        ocrText := ocr_text
        isMedical := is_medical
        storagePath := some unique_filename
        analysisResult := analysis_result
        summaryResult := summary_result
        uploadedAt := env.now }
    match env.docSetFail with
    | some e => (.error e, st1)
    | none => (.ok record_data, { st1 with records := st1.records ++ [record_data] })

/-- Embedding of the `upload_file` handler (main.py lines 173-243):
validation (missing file part, empty filename, falsy `userId`/`category`),
then the pipeline under the top-level `try`, whose caught exception becomes
a 500 response carrying `str(e)`. -/
def upload_file (env : UploadEnv) (req : UploadRequest) (st : Store) :
    (Nat × ApiBody) × Store :=
  if req.hasFilePart = false then
    ((400, .error "No file part in the request"), st)
  else if req.filename = "" then
    ((400, .error "No selected file"), st)
  else if pyTruthyOpt req.userId = false ∨ pyTruthyOpt req.category = false then
    ((400, .error "User ID and category are required"), st)
  else
    match upload_pipeline env req (req.userId.getD "") (req.category.getD "") st with
    | (.ok record_data, st') =>
      ((201, .uploadOk "File uploaded and processed successfully" record_data), st')
    | (.error e, st') => ((500, .error e), st')

/-! ## List endpoint (`get_records`, main.py lines 245-273) -/

/-- Loop body of `get_records`: for each record of the query result, attach
a freshly generated signed URL when it has a `storagePath` (the signing
oracle may raise), `none` otherwise. -/
def build_download (signUrl : String → Except String String) :
    List RecordDoc → Except String (List (RecordDoc × Option String))
  | [] => .ok []
  | r :: rs =>
    match r.storagePath with
    | some p =>
      match signUrl p with
      | .error e => .error e
      | .ok u =>
        match build_download signUrl rs with
        | .error e => .error e
        | .ok rest => .ok ((r, some u) :: rest)
    | none =>
      match build_download signUrl rs with
      | .error e => .error e
      | .ok rest => .ok ((r, none) :: rest)

/-- Embedding of the `get_records` handler (main.py lines 245-273): requires
a truthy `userId` query parameter, filters records by owner, attaches signed
URLs; any exception inside the `try` yields a 500 response with the fixed
body `Failed to fetch records`.  The handler performs no writes. -/
def get_records (signUrl : String → Except String String)
    (user_id : Option String) (st : Store) : Nat × ApiBody :=
  if pyTruthyOpt user_id = false then (400, .error "User ID is required")
  else
    match build_download signUrl (st.records.filter (fun r => r.userId = user_id.getD "")) with
    | .ok rs => (200, .listOk rs)
    | .error _ => (500, .error "Failed to fetch records")

/-! ## Delete endpoint (`delete_record`, main.py lines 275-306) -/

/-- Environment of the delete handler: injected failure of the blob
deletion and of the Firestore record deletion (the exception message when
they raise). -/
structure DeleteEnv where
  blobDeleteFail : Option String
  recordDeleteFail : Option String

/-- Model of `blob.delete()`: raises on injected failure, raises not-found
when no blob lives under the key, otherwise removes it. -/
def blobDelete (env : DeleteEnv) (st : Store) (path : String) :
    Except String Store :=
  match env.blobDeleteFail with
  | some e => .error e
  | none =>
    if st.blobs.any (fun p => p.1 = path) then
      .ok { st with blobs := st.blobs.filter (fun p => p.1 ≠ path) }
    else .error "404 blob not found"

/-- Embedding of the `delete_record` handler (main.py lines 275-306):
requires a truthy `userId`, 404 when the record id is absent, 403 when the
requester does not own the record; otherwise best-effort blob deletion
(exceptions swallowed, main.py lines 294-300) followed by record deletion;
an exception of the record deletion is caught by the top-level `try` and
yields a 500 response with the fixed body `Failed to delete record`. -/
def delete_record (env : DeleteEnv) (record_id : String)
    (user_id : Option String) (st : Store) : (Nat × ApiBody) × Store :=
  if pyTruthyOpt user_id = false then ((400, .error "User ID is required"), st)
  else
    match st.findRecord record_id with
    | none => ((404, .error "Record not found"), st)
    | some doc =>
      if doc.userId ≠ user_id.getD "" then
        ((403, .error "Unauthorized to delete this record"), st)
      else
        let st1 :=
          match doc.storagePath with
          | some p =>
            if p ≠ "" then
              match blobDelete env st p with
              | .ok st' => st'
              | .error _ => st
            else st
          | none => st
        match env.recordDeleteFail with
        | some _ => ((500, .error "Failed to delete record"), st1)
        | none =>
          ((200, .deleteOk "Record deleted successfully"),
            { st1 with records := st1.records.filter (fun r => r.id ≠ record_id) })

/-! ## Direct summarize / analyze endpoints (main.py lines 310-324) -/

/-- Parsed JSON value, as returned by `request.get_json()` (`jnull` parses
to Python `None`). -/
inductive JVal where
  | jnull
  | jbool (b : Bool)
  | jnum (n : Int)
  | jstr (s : String)
  | jarr (elems : List JVal)
  | jobj (fields : List (String × JVal))

/-- Python truthiness of a parsed JSON value. -/
def jTruthy : JVal → Bool
  | .jnull => false
  | .jbool b => b
  | .jnum n => n ≠ 0
  | .jstr s => s ≠ ""
  | .jarr elems => !elems.isEmpty
  | .jobj fields => !fields.isEmpty

/-- Python `dict.get` on a parsed JSON object (later duplicate keys of the
parsed JSON text overwrite earlier ones, as in `json.loads`). -/
def pyDictGet (fields : List (String × JVal)) (key : String) : Option JVal :=
  (fields.reverse.find? (fun p => p.1 = key)).map (fun p => p.2)

/-- Guard that the handlers' 400 branch actually tests: the object's `text`
entry is absent or falsy. -/
def textAbsentOrFalsy (fields : List (String × JVal)) : Bool :=
  match pyDictGet fields "text" with
  | none => true
  | some v => !jTruthy v

/-- True exactly on JSON objects. -/
def isJObj : JVal → Bool
  | .jobj _ => true
  | _ => false

/-- Embedding of the `summarize_text_api` handler (main.py lines 310-316).
`data.get` exists only on a dict: a non-object body makes `data.get('text')`
raise `AttributeError` (uncaught — the handler has no `try`), modelled as
`Except.error`; a truthy non-string `text` reaches `get_summary_from_ai`,
where `text_content.strip()` raises `AttributeError`, likewise uncaught. -/
def summarize_text_api (gen : String → Except String String) (data : JVal) :
    Except String (Nat × ApiBody) :=
  match data with
  | .jobj fields =>
    match pyDictGet fields "text" with
    | some v =>
      if jTruthy v then
        match v with
        | .jstr s => .ok (200, .summaryOk (get_summary_from_ai gen (some s)).1)
        | _ => .error "AttributeError: object has no attribute strip"
      else .ok (400, .error "Text is required for summarization")
    | none => .ok (400, .error "Text is required for summarization")
  | _ => .error "AttributeError: object has no attribute get"

/-- Embedding of the `analyze_document_api` handler (main.py lines 318-324),
with the same shape as `summarize_text_api`. -/
def analyze_document_api (gen : String → Except String String) (data : JVal) :
    Except String (Nat × ApiBody) :=
  match data with
  | .jobj fields =>
    match pyDictGet fields "text" with
    | some v =>
      if jTruthy v then
        match v with
        | .jstr s => .ok (200, .analysisOk (get_analysis_from_ai gen (some s)).1)
        | _ => .error "AttributeError: object has no attribute strip"
      else .ok (400, .error "Text is required for analysis")
    | none => .ok (400, .error "Text is required for analysis")
  | _ => .error "AttributeError: object has no attribute get"

/-! ## Claim theorems -/

/-- C1: for every input (file bytes, declared MIME type, filename) the Text
Extractor returns a string (it is a total function) whose value is never
empty or whitespace-only, and whenever the selected branch yields empty or
whitespace-only text the result is the fixed "no readable text" message
naming the filename and the MIME type. -/
theorem extractor_total_never_blank (env : ExtractEnv) (file_bytes : List Nat)
    (file_mimetype filename : String) :
    pyStrip (extract_text_from_file env file_bytes file_mimetype filename) ≠ "" ∧
    (pyStrip (extract_branch env file_bytes file_mimetype filename) = "" →
      extract_text_from_file env file_bytes file_mimetype filename =
        noReadableMsg filename file_mimetype) := by
  have hmain : extract_text_from_file env file_bytes file_mimetype filename =
      if pyStrip (extract_branch env file_bytes file_mimetype filename) = ""
      then noReadableMsg filename file_mimetype
      else extract_branch env file_bytes file_mimetype filename := rfl
  by_cases h : pyStrip (extract_branch env file_bytes file_mimetype filename) = ""
  · rw [hmain, if_pos h]
    exact ⟨noReadableMsg_strip_ne filename file_mimetype, fun _ => rfl⟩
  · rw [hmain, if_neg h]
    exact ⟨h, fun hc => absurd hc h⟩

/-- Concrete extractor environment whose image-OCR branch yields
whitespace-only text. -/
def wBlankEnv : ExtractEnv :=
  { imageOcr := fun _ => .ok "  "
    pdfOcr := fun _ => .ok ""
    docxParse := fun _ => .ok [] }

/-- Witness for C1 at a concrete input whose branch text strips to empty. -/
theorem extractor_total_never_blank_witness :
    pyStrip (extract_branch wBlankEnv [] "image/png" "scan.png") = "" ∧
    extract_text_from_file wBlankEnv [] "image/png" "scan.png" =
      noReadableMsg "scan.png" "image/png" :=
  ⟨by decide,
    (extractor_total_never_blank wBlankEnv [] "image/png" "scan.png").2 (by decide)⟩

/-- C5: for any file whose declared MIME type is none of the supported ones
(`image/*`, `application/pdf`, the DOCX MIME, the legacy DOC MIME), the
extractor output equals the fixed "unsupported type" message — an exact
string that interpolates the MIME type (and mentions no other input). -/
theorem unsupported_mime_fixed_message (env : ExtractEnv)
    (file_bytes : List Nat) (file_mimetype filename : String)
    (h1 : pyStartsWith file_mimetype "image/" = false)
    (h2 : file_mimetype ≠ "application/pdf")
    (h3 : file_mimetype ≠ docxMime)
    (h4 : file_mimetype ≠ "application/msword") :
    extract_text_from_file env file_bytes file_mimetype filename =
      "Text extraction not supported for file type: " ++ file_mimetype ++
        ". No digital copy extracted." := by
  have hb : extract_branch env file_bytes file_mimetype filename =
      unsupportedMsg file_mimetype := by
    unfold extract_branch
    rw [if_neg (by simp [h1]), if_neg h2, if_neg h3, if_neg h4]
  have hmain : extract_text_from_file env file_bytes file_mimetype filename =
      if pyStrip (extract_branch env file_bytes file_mimetype filename) = ""
      then noReadableMsg filename file_mimetype
      else extract_branch env file_bytes file_mimetype filename := rfl
  rw [hmain, hb, if_neg (unsupportedMsg_strip_ne file_mimetype)]
  rfl

/-- Witness for C5 at the concrete MIME type `text/plain`. -/
theorem unsupported_mime_fixed_message_witness :
    extract_text_from_file wBlankEnv [] "text/plain" "notes.txt" =
      "Text extraction not supported for file type: " ++ "text/plain" ++
        ". No digital copy extracted." :=
  unsupported_mime_fixed_message wBlankEnv [] "text/plain" "notes.txt"
    (by decide) (by decide) (by decide) (by decide)

/-- Extractor environment whose DOCX parse yields a single empty paragraph. -/
def c4Env : ExtractEnv :=
  { imageOcr := fun _ => .ok ""
    pdfOcr := fun _ => .ok ""
    docxParse := fun _ => .ok [""] }

/-- C4 counterexample: a DOCX whose document has the single paragraph `""`
parses successfully, yet extraction does not return the newline-join of the
paragraphs (the empty string) — the whitespace-only result is replaced by
the "no readable text" message. -/
theorem docx_join_counterexample :
    extract_text_from_file c4Env [] docxMime "report.docx" ≠
      String.intercalate "\n" [""] := by decide

/-- Helper: a record returned by a successful run of the upload pipeline
carries `ocrText` equal to the extractor's output on the request's bytes,
lowercased MIME type and filename. -/
theorem upload_pipeline_ok_ocrText (env : UploadEnv) (req : UploadRequest)
    (u c : String) (st st' : Store) (rd : RecordDoc)
    (h : upload_pipeline env req u c st = (.ok rd, st')) :
    rd.ocrText = extract_text_from_file env.extractEnv req.fileBytes
      (pyLower req.mimetype) req.filename := by
  unfold upload_pipeline at h
  rcases hb : env.blobUploadFail with _ | e
  · rw [hb] at h
    rcases hd : env.docSetFail with _ | e2
    · rw [hd] at h
      simp only [Prod.mk.injEq, Except.ok.injEq] at h
      rw [← h.1]
    · rw [hd] at h
      simp at h
  · rw [hb] at h
    simp at h

/-- C4, amended: successful DOCX extraction returns the paragraph texts
joined by newline separators in original order provided the join is not
empty or whitespace-only (otherwise the fixed "no readable text" message is
returned, as C1 states); and a 201 upload response carries a record whose
`ocrText` is exactly the extractor's output, so an upload of such a DOCX
yields `ocrText` equal to the join. -/
theorem docx_join_amended :
    (∀ (env : ExtractEnv) (file_bytes : List Nat) (filename : String)
        (paras : List String),
      env.docxParse file_bytes = .ok paras →
      pyStrip (String.intercalate "\n" paras) ≠ "" →
      extract_text_from_file env file_bytes docxMime filename =
        String.intercalate "\n" paras) ∧
    (∀ (env : UploadEnv) (req : UploadRequest) (st st' : Store)
        (msg : String) (rd : RecordDoc),
      upload_file env req st = ((201, .uploadOk msg rd), st') →
      rd.ocrText = extract_text_from_file env.extractEnv req.fileBytes
        (pyLower req.mimetype) req.filename) := by
  constructor
  · intro env file_bytes filename paras hparse hne
    have hb : extract_branch env file_bytes docxMime filename =
        String.intercalate "\n" paras := by
      unfold extract_branch
      rw [if_neg (by decide), if_neg (by decide), if_pos rfl, hparse]
    have hmain : extract_text_from_file env file_bytes docxMime filename =
        if pyStrip (extract_branch env file_bytes docxMime filename) = ""
        then noReadableMsg filename docxMime
        else extract_branch env file_bytes docxMime filename := rfl
    rw [hmain, hb, if_neg hne]
  · intro env req st st' msg rd h
    unfold upload_file at h
    by_cases h1 : req.hasFilePart = false
    · rw [if_pos h1] at h; simp at h
    · rw [if_neg h1] at h
      by_cases h2 : req.filename = ""
      · rw [if_pos h2] at h; simp at h
      · rw [if_neg h2] at h
        by_cases h3 : pyTruthyOpt req.userId = false ∨ pyTruthyOpt req.category = false
        · rw [if_pos h3] at h; simp at h
        · rw [if_neg h3] at h
          rcases hp : upload_pipeline env req (req.userId.getD "") (req.category.getD "") st
            with ⟨res, st2⟩
          rw [hp] at h
          cases res with
          | ok record =>
            simp only [Prod.mk.injEq, ApiBody.uploadOk.injEq] at h
            exact h.1.2.2 ▸ upload_pipeline_ok_ocrText env req _ _ st st2 record hp
          | error e => simp at h

/-- Upload environment used by the amended-C4 witness: DOCX parse yields two
nonempty paragraphs. -/
def c4UploadEnv : UploadEnv :=
  { extractEnv :=
      { imageOcr := fun _ => .ok ""
        pdfOcr := fun _ => .ok ""
        docxParse := fun _ => .ok ["Patient: Jane Doe", "Diagnosis: healthy"] }
    genClassify := fun _ => .error "down"
    genSummary := fun _ => .error "down"
    genAnalyze := fun _ => .error "down"
    randHex := "aa"
    docId := "d1"
    blobUploadFail := none
    docSetFail := none
    now := 7 }

/-- Upload request used by the amended-C4 witness. -/
def c4Req : UploadRequest :=
  { hasFilePart := true
    filename := "visit.docx"
    fileBytes := [80, 75]
    mimetype := docxMime
    contentLength := some 2
    userId := some "u1"
    category := some "general" }

/-- Record that the upload of `c4Req` under `c4UploadEnv` persists. -/
def c4OutRec : RecordDoc :=
  { id := "d1"
    userId := "u1"
    name := "visit.docx"
    type := docxMime
    size := some 2
    uploadDate := 7
    category := "general"
    ocrText := "Patient: Jane Doe\nDiagnosis: healthy"
    isMedical := false
    storagePath := some "u1/aa_visit.docx"
    analysisResult := notEnoughAnalysisMsg
    summaryResult := notEnoughSummaryMsg
    uploadedAt := 7 }

/-- Witness for the amended C4: both conjuncts applied at concrete inputs,
every hypothesis discharged by evaluation. -/
theorem docx_join_amended_witness :
    extract_text_from_file c4UploadEnv.extractEnv [80, 75] docxMime "visit.docx" =
      String.intercalate "\n" ["Patient: Jane Doe", "Diagnosis: healthy"] ∧
    c4OutRec.ocrText = extract_text_from_file c4UploadEnv.extractEnv
      c4Req.fileBytes (pyLower c4Req.mimetype) c4Req.filename :=
  ⟨docx_join_amended.1 c4UploadEnv.extractEnv [80, 75] "visit.docx"
      ["Patient: Jane Doe", "Diagnosis: healthy"] rfl (by decide),
    docx_join_amended.2 c4UploadEnv c4Req { blobs := [], records := [] }
      { blobs := [("u1/aa_visit.docx", [80, 75])], records := [c4OutRec] }
      "File uploaded and processed successfully" c4OutRec (by decide)⟩

/-- C2: the Content Classifier returns `false` ("not medical") with zero
external model calls whenever the input text is absent, shorter than 50
characters, or contains one of the failure-indicator substrings
`could not extract text` / `ocr failed` case-insensitively; and it returns
`false` whenever the external call raises — independent scenarios, same
outcome. -/
theorem classifier_guard_and_failure :
    (∀ (gen : String → Except String (Option String)) (tc : Option String),
      (tc = none ∨ ∃ t, tc = some t ∧
        (t.length < 50 ∨ pyIn "could not extract text" (pyLower t) = true ∨
          pyIn "ocr failed" (pyLower t) = true)) →
      is_medical_file_ai gen tc = (false, 0)) ∧
    (∀ (gen : String → Except String (Option String)) (t e : String),
      gen (classifyPrompt t) = .error e →
      (is_medical_file_ai gen (some t)).1 = false) := by
  have hfun : ∀ (gen : String → Except String (Option String)) (t : String),
      is_medical_file_ai gen (some t) =
        if t = "" ∨ (pyStrip t).length < 50 ∨
            pyIn "could not extract text" (pyLower t) = true ∨
            pyIn "ocr failed" (pyLower t) = true then (false, 0)
        else
          match gen (classifyPrompt t) with
          | .error _ => (false, 1)
          | .ok none => (false, 1)
          | .ok (some resp) => (pyIn "YES" (pyUpper (pyStrip resp)), 1) :=
    fun _ _ => rfl
  constructor
  · intro gen tc h
    rcases h with h | ⟨t, ht, hcase⟩
    · rw [h]; rfl
    · rw [ht, hfun, if_pos]
      rcases hcase with hlen | hsub | hsub
      · exact Or.inr (Or.inl (lt_of_le_of_lt (pyStrip_length_le t) hlen))
      · exact Or.inr (Or.inr (Or.inl hsub))
      · exact Or.inr (Or.inr (Or.inr hsub))
  · intro gen t e hgen
    rw [hfun]
    by_cases hg : t = "" ∨ (pyStrip t).length < 50 ∨
        pyIn "could not extract text" (pyLower t) = true ∨
        pyIn "ocr failed" (pyLower t) = true
    · rw [if_pos hg]
    · rw [if_neg hg, hgen]

/-- Text of exactly 60 non-guard characters used by the C2/C3 witnesses. -/
def wLongText : String :=
  "Patient presents with seasonal allergies and mild dehydration"

/-- Witness for C2: the guard fires on a short text with zero calls, and a
failing external call yields `false`. -/
theorem classifier_guard_and_failure_witness :
    is_medical_file_ai (fun _ => .ok (some "YES")) (some "short note") =
      (false, 0) ∧
    (is_medical_file_ai (fun _ => .error "quota exceeded") (some wLongText)).1 =
      false :=
  ⟨classifier_guard_and_failure.1 (fun _ => .ok (some "YES")) (some "short note")
      (Or.inr ⟨"short note", rfl, Or.inl (by decide)⟩),
    classifier_guard_and_failure.2 (fun _ => .error "quota exceeded") wLongText
      "quota exceeded" rfl⟩

/-- C3: for any text shorter than 50 characters, the Summarizer and the
Analyzer each return their fixed "not enough content" message with zero
external model calls; when the guard passes and the external call raises,
each returns a string embedding the error message (and raises nothing — the
functions are total). -/
theorem summarizer_analyzer_guard_and_failure :
    (∀ (gen : String → Except String String) (t : String), t.length < 50 →
      get_summary_from_ai gen (some t) = (notEnoughSummaryMsg, 0) ∧
      get_analysis_from_ai gen (some t) = (notEnoughAnalysisMsg, 0)) ∧
    (∀ (gen : String → Except String String) (t e : String),
      50 ≤ (pyStrip t).length → gen (summaryPrompt t) = .error e →
      get_summary_from_ai gen (some t) =
        ("Failed to generate summary: " ++ e, 1)) ∧
    (∀ (gen : String → Except String String) (t e : String),
      50 ≤ (pyStrip t).length → gen (analysisPrompt t) = .error e →
      get_analysis_from_ai gen (some t) =
        ("Failed to analyze document: " ++ e, 1)) := by
  have hsum : ∀ (gen : String → Except String String) (t : String),
      get_summary_from_ai gen (some t) =
        if t = "" ∨ (pyStrip t).length < 50 then (notEnoughSummaryMsg, 0)
        else
          match gen (summaryPrompt t) with
          | .ok resp => (pyStrip resp, 1)
          | .error e => ("Failed to generate summary: " ++ e, 1) :=
    fun _ _ => rfl
  have hana : ∀ (gen : String → Except String String) (t : String),
      get_analysis_from_ai gen (some t) =
        if t = "" ∨ (pyStrip t).length < 50 then (notEnoughAnalysisMsg, 0)
        else
          match gen (analysisPrompt t) with
          | .ok resp => (pyStrip resp, 1)
          | .error e => ("Failed to analyze document: " ++ e, 1) :=
    fun _ _ => rfl
  refine ⟨?_, ?_, ?_⟩
  · intro gen t hlen
    have hguard : t = "" ∨ (pyStrip t).length < 50 :=
      Or.inr (lt_of_le_of_lt (pyStrip_length_le t) hlen)
    exact ⟨by rw [hsum, if_pos hguard], by rw [hana, if_pos hguard]⟩
  · intro gen t e hlen hgen
    have hguard : ¬(t = "" ∨ (pyStrip t).length < 50) := by
      rintro (h | h)
      · subst h
        simp [pyStrip] at hlen
      · omega
    rw [hsum, if_neg hguard, hgen]
  · intro gen t e hlen hgen
    have hguard : ¬(t = "" ∨ (pyStrip t).length < 50) := by
      rintro (h | h)
      · subst h
        simp [pyStrip] at hlen
      · omega
    rw [hana, if_neg hguard, hgen]

/-- Witness for C3: guard at a short text, failure-embedding at a long one. -/
theorem summarizer_analyzer_guard_and_failure_witness :
    (get_summary_from_ai (fun _ => .ok "S") (some "short note") =
        (notEnoughSummaryMsg, 0) ∧
      get_analysis_from_ai (fun _ => .ok "A") (some "short note") =
        (notEnoughAnalysisMsg, 0)) ∧
    get_summary_from_ai (fun _ => .error "timeout") (some wLongText) =
      ("Failed to generate summary: " ++ "timeout", 1) ∧
    get_analysis_from_ai (fun _ => .error "timeout") (some wLongText) =
      ("Failed to analyze document: " ++ "timeout", 1) :=
  ⟨summarizer_analyzer_guard_and_failure.1 (fun _ => .ok "S") "short note"
      (by decide),
    summarizer_analyzer_guard_and_failure.2.1 (fun _ => .error "timeout")
      wLongText "timeout" (by decide) rfl,
    summarizer_analyzer_guard_and_failure.2.2 (fun _ => .error "timeout")
      wLongText "timeout" (by decide) rfl⟩

/-- C6: an upload request missing the file part, with an empty filename, or
missing the `userId` or `category` form field gets a 400 response, and the
handler performs zero writes to the Blob Store and zero writes to the
Record Store (the store is returned unchanged). -/
theorem upload_validation_no_side_effects (env : UploadEnv)
    (req : UploadRequest) (st : Store)
    (h : req.hasFilePart = false ∨ req.filename = "" ∨
      req.userId = none ∨ req.category = none) :
    (upload_file env req st).1.1 = 400 ∧ (upload_file env req st).2 = st := by
  unfold upload_file
  by_cases h1 : req.hasFilePart = false
  · rw [if_pos h1]; exact ⟨rfl, rfl⟩
  · rw [if_neg h1]
    by_cases h2 : req.filename = ""
    · rw [if_pos h2]; exact ⟨rfl, rfl⟩
    · rw [if_neg h2]
      have h3 : pyTruthyOpt req.userId = false ∨ pyTruthyOpt req.category = false := by
        rcases h with h | h | h | h
        · exact absurd h h1
        · exact absurd h h2
        · exact Or.inl (by rw [h]; rfl)
        · exact Or.inr (by rw [h]; rfl)
      rw [if_pos h3]
      exact ⟨rfl, rfl⟩

/-- Upload request missing only the `category` form field. -/
def c6Req : UploadRequest :=
  { hasFilePart := true
    filename := "a.png"
    fileBytes := [1]
    mimetype := "image/png"
    contentLength := some 1
    userId := some "u1"
    category := none }

/-- Witness for C6: missing `category` at a nonempty store. -/
theorem upload_validation_no_side_effects_witness :
    (upload_file c4UploadEnv c6Req { blobs := [("k", [2])], records := [c4OutRec] }).1.1 = 400 ∧
    (upload_file c4UploadEnv c6Req { blobs := [("k", [2])], records := [c4OutRec] }).2 =
      { blobs := [("k", [2])], records := [c4OutRec] } :=
  upload_validation_no_side_effects c4UploadEnv c6Req
    { blobs := [("k", [2])], records := [c4OutRec] }
    (Or.inr (Or.inr (Or.inr rfl)))

/-- C7: deleting a record whose owner differs from the supplied (nonempty)
`userId` yields 403 with the store unchanged — blob and record intact; and
deleting a non-existent record id yields 404, also with nothing mutated. -/
theorem delete_unauthorized_and_missing (env : DeleteEnv) (st : Store)
    (record_id user_id : String) (hu : user_id ≠ "") :
    (st.findRecord record_id = none →
      (delete_record env record_id (some user_id) st).1.1 = 404 ∧
      (delete_record env record_id (some user_id) st).2 = st) ∧
    (∀ doc, st.findRecord record_id = some doc → doc.userId ≠ user_id →
      (delete_record env record_id (some user_id) st).1.1 = 403 ∧
      (delete_record env record_id (some user_id) st).2 = st) := by
  have hne : ¬(pyTruthyOpt (some user_id) = false) := by
    simp [pyTruthyOpt, hu]
  constructor
  · intro hn
    have key : delete_record env record_id (some user_id) st =
        ((404, .error "Record not found"), st) := by
      unfold delete_record
      rw [if_neg hne]
      simp only [hn]
    rw [key]
    exact ⟨rfl, rfl⟩
  · intro doc hd howner
    have hown : doc.userId ≠ (some user_id).getD "" := by simpa using howner
    have key : delete_record env record_id (some user_id) st =
        ((403, .error "Unauthorized to delete this record"), st) := by
      unfold delete_record
      rw [if_neg hne]
      simp only [hd]
      rw [if_pos hown]
    rw [key]
    exact ⟨rfl, rfl⟩

/-- Delete environment with no injected failures. -/
def cleanDeleteEnv : DeleteEnv := { blobDeleteFail := none, recordDeleteFail := none }

/-- Store holding one record of user `u1` together with its blob. -/
def c7Store : Store :=
  { blobs := [("u1/aa_visit.docx", [80, 75])], records := [c4OutRec] }

/-- Witness for C7: non-owner delete gives 403, unknown id gives 404, the
store stays intact in both cases. -/
theorem delete_unauthorized_and_missing_witness :
    ((delete_record cleanDeleteEnv "zzz" (some "u1") c7Store).1.1 = 404 ∧
      (delete_record cleanDeleteEnv "zzz" (some "u1") c7Store).2 = c7Store) ∧
    ((delete_record cleanDeleteEnv "d1" (some "intruder") c7Store).1.1 = 403 ∧
      (delete_record cleanDeleteEnv "d1" (some "intruder") c7Store).2 = c7Store) :=
  ⟨(delete_unauthorized_and_missing cleanDeleteEnv c7Store "zzz" "u1"
      (by decide)).1 (by decide),
    (delete_unauthorized_and_missing cleanDeleteEnv c7Store "d1" "intruder"
      (by decide)).2 c4OutRec (by decide) (by decide)⟩

/-- C8: during an owner-authorized delete, a blob-deletion exception is
swallowed — the record deletion still proceeds, the endpoint returns 200,
the record is removed from the Record Store and the Blob Store is left as
it was (the failed deletion mutated nothing). -/
theorem delete_swallows_blob_failure (env : DeleteEnv) (st : Store)
    (record_id user_id : String) (doc : RecordDoc) (e : String)
    (hu : user_id ≠ "")
    (hfind : st.findRecord record_id = some doc)
    (howner : doc.userId = user_id)
    (hblob : env.blobDeleteFail = some e)
    (hrec : env.recordDeleteFail = none) :
    (delete_record env record_id (some user_id) st).1.1 = 200 ∧
    (delete_record env record_id (some user_id) st).2.records =
      st.records.filter (fun r => r.id ≠ record_id) ∧
    (delete_record env record_id (some user_id) st).2.blobs = st.blobs := by
  have hne : ¬(pyTruthyOpt (some user_id) = false) := by
    simp [pyTruthyOpt, hu]
  have hown : ¬(doc.userId ≠ (some user_id).getD "") := by simpa using howner
  have key : delete_record env record_id (some user_id) st =
      ((200, .deleteOk "Record deleted successfully"),
        { st with records := st.records.filter (fun r => r.id ≠ record_id) }) := by
    unfold delete_record
    rw [if_neg hne]
    simp only [hfind]
    rw [if_neg hown]
    rcases hsp : doc.storagePath with _ | p
    · simp only [hsp, hrec]
    · simp only [hsp]
      by_cases hp : p ≠ ""
      · rw [if_pos hp]
        unfold blobDelete
        simp only [hblob, hrec]
      · rw [if_neg hp]
        simp only [hrec]
  rw [key]
  exact ⟨rfl, rfl, rfl⟩

/-- Delete environment whose blob deletion raises. -/
def blobFailEnv : DeleteEnv :=
  { blobDeleteFail := some "storage unavailable", recordDeleteFail := none }

/-- Witness for C8: owner delete with a failing blob deletion returns 200,
removes the record, and leaves the blobs untouched. -/
theorem delete_swallows_blob_failure_witness :
    (delete_record blobFailEnv "d1" (some "u1") c7Store).1.1 = 200 ∧
    (delete_record blobFailEnv "d1" (some "u1") c7Store).2.records =
      c7Store.records.filter (fun r => r.id ≠ "d1") ∧
    (delete_record blobFailEnv "d1" (some "u1") c7Store).2.blobs =
      c7Store.blobs :=
  delete_swallows_blob_failure blobFailEnv c7Store "d1" "u1" c4OutRec
    "storage unavailable" (by decide) (by decide) (by decide) rfl rfl

/-- C9 counterexample: an exception with message `boom` raised while the
list handler generates a signed URL is caught at the top level and reported
as 500, but the response body is the fixed string
`Failed to fetch records`, which does not contain the raw exception
message — refuting the claim that every handler's 500 body contains the raw
message. -/
theorem handler_500_raw_message_counterexample :
    get_records (fun _ => .error "boom") (some "u1")
        { blobs := [("u1/aa_visit.docx", [80, 75])], records := [c4OutRec] } =
      (500, .error "Failed to fetch records") ∧
    pyIn "boom" "Failed to fetch records" = false := by
  constructor
  · rfl
  · decide

/-- C9, amended: every unanticipated exception inside a handler is caught at
the handler's top level and reported as 500, but only the upload handler
puts the raw exception message in the body; the list and delete handlers
answer with the fixed bodies `Failed to fetch records` and
`Failed to delete record` respectively. -/
theorem handler_500_bodies :
    (∀ (env : UploadEnv) (req : UploadRequest) (st st' : Store) (e : String),
      req.hasFilePart = true → req.filename ≠ "" →
      pyTruthyOpt req.userId = true → pyTruthyOpt req.category = true →
      upload_pipeline env req (req.userId.getD "") (req.category.getD "") st =
        (.error e, st') →
      upload_file env req st = ((500, .error e), st')) ∧
    (∀ (signUrl : String → Except String String) (user_id : String)
        (st : Store) (e : String),
      user_id ≠ "" →
      build_download signUrl (st.records.filter (fun r => r.userId = user_id)) =
        .error e →
      get_records signUrl (some user_id) st =
        (500, .error "Failed to fetch records")) ∧
    (∀ (env : DeleteEnv) (st : Store) (record_id user_id : String)
        (doc : RecordDoc) (e : String),
      user_id ≠ "" →
      st.findRecord record_id = some doc →
      doc.userId = user_id →
      env.recordDeleteFail = some e →
      (delete_record env record_id (some user_id) st).1 =
        (500, ApiBody.error "Failed to delete record")) := by
  refine ⟨?_, ?_, ?_⟩
  · intro env req st st' e h1 h2 h3 h4 hp
    unfold upload_file
    rw [if_neg (by rw [h1]; exact fun hc => Bool.noConfusion hc),
      if_neg h2,
      if_neg (by rw [h3, h4]; rintro (hc | hc) <;> exact Bool.noConfusion hc)]
    simp only [hp]
  · intro signUrl user_id st e hu hb
    unfold get_records
    rw [if_neg (by simp [pyTruthyOpt, hu])]
    have : (some user_id).getD "" = user_id := rfl
    rw [this]
    simp only [hb]
  · intro env st record_id user_id doc e hu hfind howner hrec
    have hne : ¬(pyTruthyOpt (some user_id) = false) := by
      simp [pyTruthyOpt, hu]
    have hown : ¬(doc.userId ≠ (some user_id).getD "") := by simpa using howner
    unfold delete_record
    rw [if_neg hne]
    simp only [hfind]
    rw [if_neg hown]
    rcases hsp : doc.storagePath with _ | p
    · simp only [hsp, hrec]
    · simp only [hsp]
      by_cases hp : p ≠ ""
      · rw [if_pos hp]
        simp only [hrec]
      · rw [if_neg hp]
        simp only [hrec]

/-- Upload environment whose Firestore `set` raises. -/
def setFailEnv : UploadEnv :=
  { extractEnv := wBlankEnv
    genClassify := fun _ => .ok (some "NO")
    genSummary := fun _ => .ok "s"
    genAnalyze := fun _ => .ok "a"
    randHex := "bb"
    docId := "d2"
    blobUploadFail := none
    docSetFail := some "firestore down"
    now := 9 }

/-- Upload request passing validation, used by the C9 witness. -/
def c9Req : UploadRequest :=
  { hasFilePart := true
    filename := "b.png"
    fileBytes := [3]
    mimetype := "image/png"
    contentLength := some 1
    userId := some "u1"
    category := some "general"}

/-- Delete environment whose record deletion raises. -/
def recFailEnv : DeleteEnv :=
  { blobDeleteFail := none, recordDeleteFail := some "firestore down" }

/-- Witness for the amended C9: all three conjuncts applied at concrete
inputs, every hypothesis discharged by evaluation. -/
theorem handler_500_bodies_witness :
    upload_file setFailEnv c9Req { blobs := [], records := [] } =
      ((500, .error "firestore down"),
        { blobs := [("u1/bb_b.png", [3])], records := [] }) ∧
    get_records (fun _ => .error "sign failure") (some "u1") c7Store =
      (500, .error "Failed to fetch records") ∧
    (delete_record recFailEnv "d1" (some "u1") c7Store).1 =
      (500, ApiBody.error "Failed to delete record") :=
  ⟨handler_500_bodies.1 setFailEnv c9Req { blobs := [], records := [] }
      { blobs := [("u1/bb_b.png", [3])], records := [] } "firestore down"
      rfl (by decide) rfl rfl rfl,
    handler_500_bodies.2.1 (fun _ => .error "sign failure") "u1" c7Store
      "sign failure" (by decide) rfl,
    handler_500_bodies.2.2 recFailEnv c7Store "d1" "u1" c4OutRec
      "firestore down" (by decide) (by decide) (by decide) rfl⟩

/-- C10: the summarize and analyze endpoints return 400 only when the
parsed JSON body is an object whose `text` entry is absent or falsy; for
any body parsing to a non-object JSON value (e.g. `null`, parsed to Python
`None`), `data.get` raises an uncaught exception and the handler does not
reach its 400 validation branch. -/
theorem api_text_validation :
    (∀ (gen : String → Except String String) (d : JVal) (p : Nat × ApiBody),
      summarize_text_api gen d = .ok p → p.1 = 400 →
      ∃ fields, d = .jobj fields ∧ textAbsentOrFalsy fields = true) ∧
    (∀ (gen : String → Except String String) (d : JVal) (p : Nat × ApiBody),
      analyze_document_api gen d = .ok p → p.1 = 400 →
      ∃ fields, d = .jobj fields ∧ textAbsentOrFalsy fields = true) ∧
    (∀ (gen : String → Except String String) (d : JVal), isJObj d = false →
      (∃ e, summarize_text_api gen d = .error e) ∧
      (∃ e2, analyze_document_api gen d = .error e2)) := by
  refine ⟨?_, ?_, ?_⟩
  · intro gen d p hok h400
    cases d with
    | jobj fields =>
      refine ⟨fields, rfl, ?_⟩
      unfold summarize_text_api at hok
      unfold textAbsentOrFalsy
      rcases hg : pyDictGet fields "text" with _ | v
      · rfl
      · simp only [hg] at hok
        by_cases htr : jTruthy v = true
        · rw [if_pos htr] at hok
          cases v with
          | jstr s =>
            simp only [Except.ok.injEq] at hok
            rw [← hok] at h400
            cases h400
          | jnull => cases hok
          | jbool b => cases hok
          | jnum n => cases hok
          | jarr elems => cases hok
          | jobj fs => cases hok
        · show (!jTruthy v) = true
          simpa using htr
    | jnull => cases hok
    | jbool b => cases hok
    | jnum n => cases hok
    | jstr s => cases hok
    | jarr elems => cases hok
  · intro gen d p hok h400
    cases d with
    | jobj fields =>
      refine ⟨fields, rfl, ?_⟩
      unfold analyze_document_api at hok
      unfold textAbsentOrFalsy
      rcases hg : pyDictGet fields "text" with _ | v
      · rfl
      · simp only [hg] at hok
        by_cases htr : jTruthy v = true
        · rw [if_pos htr] at hok
          cases v with
          | jstr s =>
            simp only [Except.ok.injEq] at hok
            rw [← hok] at h400
            cases h400
          | jnull => cases hok
          | jbool b => cases hok
          | jnum n => cases hok
          | jarr elems => cases hok
          | jobj fs => cases hok
        · show (!jTruthy v) = true
          simpa using htr
    | jnull => cases hok
    | jbool b => cases hok
    | jnum n => cases hok
    | jstr s => cases hok
    | jarr elems => cases hok
  · intro gen d hobj
    cases d with
    | jobj fields => cases hobj
    | jnull => exact ⟨⟨_, rfl⟩, ⟨_, rfl⟩⟩
    | jbool b => exact ⟨⟨_, rfl⟩, ⟨_, rfl⟩⟩
    | jnum n => exact ⟨⟨_, rfl⟩, ⟨_, rfl⟩⟩
    | jstr s => exact ⟨⟨_, rfl⟩, ⟨_, rfl⟩⟩
    | jarr elems => exact ⟨⟨_, rfl⟩, ⟨_, rfl⟩⟩

/-- Witness for C10: a 400 from an object body whose `text` is the empty
string, and rejection-by-exception for the JSON body `null`. -/
theorem api_text_validation_witness :
    (∃ fields, JVal.jobj [("text", JVal.jstr "")] = JVal.jobj fields ∧
      textAbsentOrFalsy fields = true) ∧
    (∃ e, summarize_text_api (fun _ => .ok "s") JVal.jnull = .error e) ∧
    (∃ e2, analyze_document_api (fun _ => .ok "a") JVal.jnull = .error e2) :=
  ⟨api_text_validation.1 (fun _ => .ok "s") (JVal.jobj [("text", JVal.jstr "")])
      (400, ApiBody.error "Text is required for summarization") rfl rfl,
    (api_text_validation.2.2 (fun _ => .ok "s") JVal.jnull rfl).1,
    (api_text_validation.2.2 (fun _ => .ok "a") JVal.jnull rfl).2⟩
